import Mathlib

/-!
Shallow embedding of the connect-managed-k8s repository: a Go test
client that connects to managed Kubernetes clusters on AWS (EKS),
GCP (GKE) and Azure (AKS).  External cloud-API and Kubernetes-client
calls are modelled as `Except`-valued oracle parameters; the decision
logic of the repository (credential-source selection, configuration
validation, cluster-readiness checks, CA-certificate handling and the
top-level run functions) is translated directly from the Go source
files `eks.go`, `main.go` (GCP part plus the entry point) and `aks.go`.
-/

namespace ConnectK8s

/-- Equality of `Except` outcomes is decidable when it is on both
sides; used to evaluate the models on concrete inputs. -/
instance {α β : Type} [DecidableEq α] [DecidableEq β] :
    DecidableEq (Except α β) := fun a b =>
  match a, b with
  | .error x, .error y =>
    if h : x = y then isTrue (by rw [h]) else isFalse (by simp [h])
  | .ok x, .ok y =>
    if h : x = y then isTrue (by rw [h]) else isFalse (by simp [h])
  | .error _, .ok _ => isFalse (by simp)
  | .ok _, .error _ => isFalse (by simp)

/-! ### Base64 decoding (model of Go encoding/base64 StdEncoding)

`eks.go` and the GKE part of `main.go` call
`base64.StdEncoding.DecodeString` on the cluster descriptor's CA field.
Go's standard decoder uses the alphabet A-Z a-z 0-9 + /, requires
padding to a multiple of four characters, allows `=` padding only in
the final quadruple, and skips `\r`/`\n` characters. -/

/-- Value of a single base64 standard-alphabet character, `none` when the
character is not in the alphabet. -/
def b64Val (c : Char) : Option Nat :=
  if 'A' ≤ c ∧ c ≤ 'Z' then some (c.toNat - 'A'.toNat)
  else if 'a' ≤ c ∧ c ≤ 'z' then some (c.toNat - 'a'.toNat + 26)
  else if '0' ≤ c ∧ c ≤ '9' then some (c.toNat - '0'.toNat + 52)
  else if c = '+' then some 62
  else if c = '/' then some 63
  else none

/-- Decode one quadruple of base64 characters; `isLast` says whether the
quadruple is the final one (only there may `=` padding appear). -/
def b64Quad (c1 c2 c3 c4 : Char) (isLast : Bool) : Option (List Nat) :=
  match b64Val c1, b64Val c2 with
  | some v1, some v2 =>
    if c3 = '=' then
      if isLast ∧ c4 = '=' then some [v1 * 4 + v2 / 16] else none
    else
      match b64Val c3 with
      | some v3 =>
        if c4 = '=' then
          if isLast then some [v1 * 4 + v2 / 16, (v2 % 16) * 16 + v3 / 4] else none
        else
          match b64Val c4 with
          | some v4 => some [v1 * 4 + v2 / 16, (v2 % 16) * 16 + v3 / 4, (v3 % 4) * 64 + v4]
          | none => none
      | none => none
  | _, _ => none

/-- Decode a list of base64 characters quadruple by quadruple. -/
def b64DecodeChars : List Char → Option (List Nat)
  | [] => some []
  | c1 :: c2 :: c3 :: c4 :: rest =>
    match b64Quad c1 c2 c3 c4 rest.isEmpty, b64DecodeChars rest with
    | some bs, some tail => some (bs ++ tail)
    | _, _ => none
  | _ => none

/-- Model of Go `base64.StdEncoding.DecodeString`: skip CR/LF, then
decode in quadruples; `none` models a non-nil error return. -/
def base64DecodeString (s : String) : Option (List Nat) :=
  b64DecodeChars (s.data.filter fun c => ¬ (c = '\r' ∨ c = '\n'))

/-! ### AWS credential-source selection (`eks.go`, initializeAWSConfig) -/

/-- The `AWSConfig` struct of `eks.go` (all fields Go strings; an unset
environment variable is the empty string). -/
structure AWSConfig where
  region : String
  profile : String
  accessKey : String
  secretKey : String
  sessionToken : String

/-- The three AWS credential sources of `initializeAWSConfig`. -/
inductive AWSCredSource
  | staticCreds
  | sharedProfile
  | defaultChain
  deriving DecidableEq, Repr

/-- Credential-source selection of `initializeAWSConfig` (`eks.go`
lines 64-73): static credentials when both AccessKey and SecretKey are
non-empty, else the shared profile when Profile is non-empty, else the
default credential chain. -/
def awsSelectCredSource (c : AWSConfig) : AWSCredSource :=
  if c.accessKey ≠ "" ∧ c.secretKey ≠ "" then .staticCreds
  else if c.profile ≠ "" then .sharedProfile
  else .defaultChain

/-! ### GCP configuration and credential-source selection (`main.go`, GCP part) -/

/-- The `GCPConfig` struct (credentialsJSON is a Go byte slice,
modelled as a list of bytes). -/
structure GCPConfig where
  projectID : String
  zone : String
  credentialsJSON : List Nat
  credentialsPath : String

/-- The three GCP credential sources of `initializeGCPClients`. -/
inductive GCPCredSource
  | inlineJSON
  | credentialsFile
  | applicationDefault
  deriving DecidableEq, Repr

/-- Credential-source selection of `initializeGCPClients` (`main.go`
lines 95-103): inline service-account JSON when non-empty, else the
credentials file when the path is non-empty, else application-default
credentials. -/
def gcpSelectCredSource (c : GCPConfig) : GCPCredSource :=
  if c.credentialsJSON.length > 0 then .inlineJSON
  else if c.credentialsPath ≠ "" then .credentialsFile
  else .applicationDefault

/-- `validateConfig` of `main.go` (lines 127-139): the project ID must
be non-empty, contain no space (`strings.Contains(id, " ")`, i.e. the
space character occurs among its characters), and have length at least
6. -/
def gcpValidateConfig (c : GCPConfig) : Except String Unit :=
  if c.projectID = "" then .error "project ID is required"
  else if c.projectID.data.contains ' ' ∨ c.projectID.data.length < 6 then
    .error ("invalid project ID format: " ++ c.projectID)
  else .ok ()

/-- `validateCredentials` of `main.go` (lines 141-152): the function
body begins with an unconditional `return nil`; the storage
bucket-listing check that follows (`m.storageClient.Buckets` /
`it.Next`) is unreachable dead code.  The parameter carries the outcome
that the dead bucket-iteration call would have produced. -/
def gcpValidateCredentials (_bucketsNext : Except String Unit) : Except String Unit :=
  Except.ok ()

/-- `initializeGCPClients` of `main.go` (lines 85-125): validate the
configuration, select the credential source, create the GKE and storage
clients (external calls, passed as oracles), then run
`validateCredentials`.  The selected source is returned as the
observable outcome. -/
def initGCPClients (cfg : GCPConfig)
    (gkeClientRes storageClientRes : Except String Unit)
    (bucketsNext : Except String Unit) : Except String GCPCredSource :=
  match gcpValidateConfig cfg with
  | .error e => .error ("configuration validation failed: " ++ e)
  | .ok _ =>
    let source := gcpSelectCredSource cfg
    match gkeClientRes with
    | .error e => .error ("failed to create GKE client: " ++ e)
    | .ok _ =>
      match storageClientRes with
      | .error e => .error ("failed to create storage client: " ++ e)
      | .ok _ =>
        match gcpValidateCredentials bucketsNext with
        | .error e => .error ("credential validation failed: " ++ e)
        | .ok _ => .ok source

/-! ### Azure credential-source selection (`aks.go`, createAzureCredential) -/

/-- The environment variables read by `createAzureCredential` (an unset
variable is the empty string). -/
structure AzureAuthEnv where
  clientID : String
  clientSecret : String
  tenantID : String
  useMSI : String

/-- The three Azure credential sources of `createAzureCredential`. -/
inductive AzureCredSource
  | servicePrincipal
  | managedIdentity
  | azureCLI
  deriving DecidableEq, Repr

/-- Credential-source selection of `createAzureCredential` (`aks.go`
lines 61-96): the service principal when AZURE_CLIENT_ID,
AZURE_CLIENT_SECRET and AZURE_TENANT_ID are all non-empty, else managed
identity when AZURE_USE_MSI is the string "true", else the Azure CLI
credential. -/
def azureSelectCredSource (e : AzureAuthEnv) : AzureCredSource :=
  if e.clientID ≠ "" ∧ e.clientSecret ≠ "" ∧ e.tenantID ≠ "" then .servicePrincipal
  else if e.useMSI = "true" then .managedIdentity
  else .azureCLI

/-! ### Kubernetes client configuration (model of `rest.Config`)

Only the fields the repository sets are modelled.  `insecure` is the
`TLSClientConfig.Insecure` flag; the EKS and GKE paths leave it at its
Go zero value `false`, the AKS Azure-AD path sets it to `false`
explicitly (`aks.go` line 122). -/
structure RestConfig where
  host : String
  bearerToken : String
  caData : List Nat
  insecure : Bool
  deriving DecidableEq, Repr

/-! ### EKS session builder (`eks.go`, initKubernetesClient) -/

/-- The fields of the EKS cluster descriptor used by
`initKubernetesClient` (`clusterOutput.Cluster`): `Status` is compared
against the literal "ACTIVE", `CertificateAuthority.Data` is the base64
CA field, `Endpoint` is the API host. -/
structure EKSCluster where
  status : String
  certificateAuthorityData : String
  endpoint : String

/-- `initKubernetesClient` of `eks.go` (lines 206-251).  `describeRes`
is the outcome of the `DescribeCluster` API call, `tokenRes` the
outcome of the aws-iam-authenticator token generation, `newForConfigRes`
the outcome of `kubernetes.NewForConfig`.  A successful run returns the
constructed client configuration (the ClusterSession). -/
def eksInitKubernetesClient (clusterName : String)
    (describeRes : Except String EKSCluster)
    (tokenRes : Except String String)
    (newForConfigRes : Except String Unit) : Except String RestConfig :=
  match describeRes with
  | .error e => .error ("failed to describe EKS cluster: " ++ e)
  | .ok cluster =>
    if cluster.status ≠ "ACTIVE" then
      .error ("cluster " ++ clusterName ++ " is not active, current status: " ++ cluster.status)
    else
      match base64DecodeString cluster.certificateAuthorityData with
      | none => .error "failed to decode certificate authority data"
      | some caCert =>
        match tokenRes with
        | .error e => .error ("failed to generate auth token: " ++ e)
        | .ok tok =>
          let kubeConfig : RestConfig :=
            { host := cluster.endpoint
              bearerToken := tok
              caData := caCert
              insecure := false }
          match newForConfigRes with
          | .error e => .error ("failed to create Kubernetes clientset: " ++ e)
          | .ok _ => .ok kubeConfig

/-! ### GKE session builder (`main.go` GCP part, initKubernetesClient) -/

/-- The GKE cluster status enum (`containerpb.Cluster_Status`). -/
inductive GKEStatus
  | statusUnspecified
  | provisioning
  | running
  | reconciling
  | stopping
  | error
  | degraded
  deriving DecidableEq, Repr

/-- The Go `String()` rendering of the GKE status enum. -/
def gkeStatusString : GKEStatus → String
  | .statusUnspecified => "STATUS_UNSPECIFIED"
  | .provisioning => "PROVISIONING"
  | .running => "RUNNING"
  | .reconciling => "RECONCILING"
  | .stopping => "STOPPING"
  | .error => "ERROR"
  | .degraded => "DEGRADED"

/-- The fields of the GKE cluster descriptor used by
`initKubernetesClient`: `Status`, `MasterAuth.ClusterCaCertificate`
(base64) and `Endpoint`. -/
structure GKECluster where
  status : GKEStatus
  masterAuthClusterCaCertificate : String
  endpoint : String

/-- `initKubernetesClient` of the GCP part of `main.go` (lines
218-276).  `getClusterRes` is the outcome of the `GetCluster` API call,
`findCredsRes` of `google.FindDefaultCredentials`, `tokenRes` of
`tokenSource.Token()`, `newForConfigRes` of
`kubernetes.NewForConfig`. -/
def gkeInitKubernetesClient (clusterName : String)
    (getClusterRes : Except String GKECluster)
    (findCredsRes : Except String Unit)
    (tokenRes : Except String String)
    (newForConfigRes : Except String Unit) : Except String RestConfig :=
  match getClusterRes with
  | .error e => .error ("failed to get GKE cluster: " ++ e)
  | .ok cluster =>
    if cluster.status ≠ GKEStatus.running then
      .error ("cluster " ++ clusterName ++ " is not running, current status: "
        ++ gkeStatusString cluster.status)
    else
      match base64DecodeString cluster.masterAuthClusterCaCertificate with
      | none => .error "failed to decode certificate authority data"
      | some caCert =>
        match findCredsRes with
        | .error e => .error ("failed to get Google Cloud credentials: " ++ e)
        | .ok _ =>
          match tokenRes with
          | .error e => .error ("failed to get access token: " ++ e)
          | .ok accessToken =>
            let kubeConfig : RestConfig :=
              { host := "https://" ++ cluster.endpoint
                bearerToken := accessToken
                caData := caCert
                insecure := false }
            match newForConfigRes with
            | .error e => .error ("failed to create Kubernetes clientset: " ++ e)
            | .ok _ => .ok kubeConfig

/-! ### AKS session builder (`aks.go`) -/

/-- `PowerState` of the managed-cluster descriptor; `Code` is a pointer
in Go, hence an `Option`. -/
structure AKSPowerState where
  code : Option String

/-- The fields of `ManagedClusterProperties` used by `aks.go`: `Fqdn`
and `PowerState`, both pointers in Go. -/
structure AKSClusterProperties where
  fqdn : Option String
  powerState : Option AKSPowerState

/-- The managed-cluster descriptor; `Properties` is a pointer in Go. -/
structure AKSManagedCluster where
  properties : Option AKSClusterProperties

/-- A kubeconfig document as seen by `extractCACertFromKubeconfig`:
the list of its clusters' `CertificateAuthorityData` byte slices. -/
abbrev KubeconfigClusters := List (List Nat)

/-- `extractCACertFromKubeconfig` of `aks.go` (lines 167-182): parse
the kubeconfig (`clientcmd.Load`, whose outcome the parameter carries)
and return the first cluster entry with non-empty CA data. -/
def extractCACertFromKubeconfig
    (loadRes : Except String KubeconfigClusters) : Except String (List Nat) :=
  match loadRes with
  | .error e => .error ("failed to parse kubeconfig: " ++ e)
  | .ok clusters =>
    match clusters.find? (fun ca => ca.length > 0) with
    | some ca => .ok ca
    | none => .error "no CA certificate found in kubeconfig"

/-- The outcome of the `ListClusterUserCredentials` API call, as used
by `getClusterCACertificate`: on success a list of kubeconfig entries,
each entry's `Value` being a possibly-nil byte slice whose only use is
to be fed to `clientcmd.Load`; the entry therefore carries
`none` for a nil `Value` and otherwise the load outcome. -/
abbrev UserCredsResult := Except String (List (Option (Except String KubeconfigClusters)))

/-- `getClusterCACertificate` of `aks.go` (lines 154-164): despite the
comment mentioning admin credentials, only `ListClusterUserCredentials`
is called; when the call succeeds, the kubeconfig list is non-empty and
its first entry's value is non-nil, CA extraction is attempted; in
every other case (including extraction failure) the function returns
the error "no CA certificate found in cluster credentials". -/
def getClusterCACertificate (listUserCredsRes : UserCredsResult) :
    Except String (List Nat) :=
  match listUserCredsRes with
  | .ok (some loadRes :: _) =>
    match extractCACertFromKubeconfig loadRes with
    | .ok caCert => .ok caCert
    | .error _ => .error "no CA certificate found in cluster credentials"
  | _ => .error "no CA certificate found in cluster credentials"

/-- `getAzureADToken` of `aks.go` (lines 138-151): requests an Azure AD
token (external call, outcome in the parameter) and wraps a failure. -/
def getAzureADToken (getTokenRes : Except String String) : Except String String :=
  match getTokenRes with
  | .error e => .error ("failed to get Azure AD token: " ++ e)
  | .ok tok => .ok tok

/-- `initKubernetesClientWithAzureAD` of `aks.go` (lines 99-135):
requires a non-nil FQDN, obtains the Azure AD token and the cluster CA
certificate, and constructs the client configuration with
`Insecure: false`; a CA-extraction failure is wrapped and returned as
an error — there is no insecure fallback. -/
def initKubernetesClientWithAzureAD (cluster : AKSManagedCluster)
    (getTokenRes : Except String String)
    (listUserCredsRes : UserCredsResult)
    (newForConfigRes : Except String Unit) : Except String RestConfig :=
  match cluster.properties with
  | none => .error "cluster FQDN is not available"
  | some props =>
    match props.fqdn with
    | none => .error "cluster FQDN is not available"
    | some fqdn =>
      match getAzureADToken getTokenRes with
      | .error e => .error ("failed to get Azure AD token: " ++ e)
      | .ok tok =>
        match getClusterCACertificate listUserCredsRes with
        | .error e => .error ("failed to get CA certificate: " ++ e)
        | .ok caCertData =>
          let kubeConfig : RestConfig :=
            { host := "https://" ++ fqdn
              bearerToken := tok
              caData := caCertData
              insecure := false }
          match newForConfigRes with
          | .error e => .error ("failed to create Kubernetes clientset: " ++ e)
          | .ok _ => .ok kubeConfig

/-- `initKubernetesClient` of `aks.go` (lines 185-210): fetch the
cluster, guard against nil properties and nil/unknown power state,
require the power-state code "Running" (`armcontainerservice.CodeRunning`),
then delegate to the Azure-AD path. -/
def aksInitKubernetesClient (clusterName : String)
    (getClusterRes : Except String AKSManagedCluster)
    (getTokenRes : Except String String)
    (listUserCredsRes : UserCredsResult)
    (newForConfigRes : Except String Unit) : Except String RestConfig :=
  match getClusterRes with
  | .error e => .error ("failed to get AKS cluster: " ++ e)
  | .ok cluster =>
    match cluster.properties with
    | none => .error "cluster properties are nil"
    | some props =>
      match props.powerState with
      | none => .error "cluster power state is unknown"
      | some ps =>
        match ps.code with
        | none => .error "cluster power state is unknown"
        | some code =>
          if code ≠ "Running" then
            .error ("cluster " ++ clusterName ++ " is not running, current status: " ++ code)
          else
            initKubernetesClientWithAzureAD cluster getTokenRes listUserCredsRes newForConfigRes

/-- The outcome of `ListClusterAdminCredentials` in the legacy AKS path
(`src/unnamed/part_002`): a list of kubeconfig entries, each entry's
`Value` possibly nil and otherwise carrying the outcome of
`clientcmd.RESTConfigFromKubeConfig` on those bytes. -/
abbrev AdminCredsResult := Except String (List (Option (Except String RestConfig)))

/-- `initKubernetesClient` of `src/unnamed/part_002` (lines 95-150),
the legacy AKS path: after the same nil-properties / power-state guards
it fetches admin credentials and builds the session from the returned
kubeconfig document. -/
def aksInitKubernetesClientLegacy (clusterName : String)
    (getClusterRes : Except String AKSManagedCluster)
    (listAdminCredsRes : AdminCredsResult)
    (newForConfigRes : Except String Unit) : Except String RestConfig :=
  match getClusterRes with
  | .error e => .error ("failed to get AKS cluster: " ++ e)
  | .ok cluster =>
    match cluster.properties with
    | none => .error "cluster properties are nil"
    | some props =>
      match props.powerState with
      | none => .error "cluster power state is unknown"
      | some ps =>
        match ps.code with
        | none => .error "cluster power state is unknown"
        | some code =>
          if code ≠ "Running" then
            .error ("cluster " ++ clusterName ++ " is not running, current status: " ++ code)
          else
            match listAdminCredsRes with
            | .error e => .error ("failed to get cluster admin credentials: " ++ e)
            | .ok [] => .error "no kubeconfig found for cluster"
            | .ok (none :: _) => .error "kubeconfig data is nil"
            | .ok (some restConfigRes :: _) =>
              match restConfigRes with
              | .error e => .error ("failed to create REST config from kubeconfig: " ++ e)
              | .ok kubeConfig =>
                match newForConfigRes with
                | .error e => .error ("failed to create Kubernetes clientset: " ++ e)
                | .ok _ => .ok kubeConfig

/-! ### Top-level run functions and the entry point

The environment is modelled as a total map from variable names to
values; `os.Getenv` returns the empty string for an unset variable.
External client construction and diagnostic calls are oracles; the
outcomes of the diagnostic calls (`GetClusterInfo`, `ListPods`,
`GetAccountID`) are only logged by the source (`log.Printf`), which in
the model means they do not influence the returned value. -/

/-- `RunEKSTest` of `eks.go` (lines 306-357): require EKS_CLUSTER_NAME,
build the client (`NewEKSClient`, an oracle), then run diagnostics
whose failures are logged only, and return nil. -/
def runEKSTest (env : String → String)
    (newEKSClientRes : Except String Unit)
    (_accountIDRes : Except String String)
    (_clusterInfoRes _listPodsRes : Except String Unit) : Except String Unit :=
  if env "EKS_CLUSTER_NAME" = "" then
    .error "EKS_CLUSTER_NAME environment variable is required"
  else
    match newEKSClientRes with
    | .error e => .error ("failed to create EKS client: " ++ e)
    | .ok _ => .ok ()

/-- `RunGCPTest` of `main.go` (lines 342-424): require GKE_CLUSTER_NAME
and GOOGLE_CLOUD_PROJECT; when GCP_CREDENTIALS_JSON is set, its value
must base64-decode and parse as JSON (`json.Unmarshal` validity is the
oracle `jsonValid`); build the client (`NewGKEClient`, an oracle); the
diagnostics' failures are logged only. -/
def runGCPTest (env : String → String) (jsonValid : Bool)
    (newGKEClientRes : Except String Unit)
    (_clusterInfoRes _listPodsRes : Except String Unit) : Except String Unit :=
  if env "GKE_CLUSTER_NAME" = "" then
    .error "GKE_CLUSTER_NAME environment variable is required"
  else if env "GOOGLE_CLOUD_PROJECT" = "" then
    .error "GOOGLE_CLOUD_PROJECT environment variable is required"
  else
    let credsB64 := env "GCP_CREDENTIALS_JSON"
    let credsCheck : Except String Unit :=
      if credsB64 ≠ "" then
        match base64DecodeString credsB64 with
        | none => .error "failed to decode GCP_CREDENTIALS_JSON"
        | some _ => if jsonValid then .ok () else .error "invalid JSON in GCP_CREDENTIALS_JSON"
      else .ok ()
    match credsCheck with
    | .error e => .error e
    | .ok _ =>
      match newGKEClientRes with
      | .error e => .error ("failed to create GKE client: " ++ e)
      | .ok _ => .ok ()

/-- `RunAKSTest` of `aks.go` (lines 294-334): AKS_CLUSTER_NAME gets a
default when unset; AZURE_RESOURCE_GROUP and AZURE_SUBSCRIPTION_ID are
required; build the client (`NewAKSClient`, an oracle); the
diagnostics' failures are logged only. -/
def runAKSTest (env : String → String)
    (newAKSClientRes : Except String Unit)
    (_clusterInfoRes _listPodsRes : Except String Unit) : Except String Unit :=
  if env "AZURE_RESOURCE_GROUP" = "" then
    .error "AZURE_RESOURCE_GROUP environment variable must be set"
  else if env "AZURE_SUBSCRIPTION_ID" = "" then
    .error "AZURE_SUBSCRIPTION_ID environment variable must be set"
  else
    match newAKSClientRes with
    | .error e => .error ("failed to create AKS client: " ++ e)
    | .ok _ => .ok ()

/-- The oracle outcomes consumed by the three run functions during one
invocation of `main`. -/
structure RunOracles where
  aksClientRes : Except String Unit
  aksClusterInfoRes : Except String Unit
  aksListPodsRes : Except String Unit
  gcpJSONValid : Bool
  gkeClientRes : Except String Unit
  gkeClusterInfoRes : Except String Unit
  gkeListPodsRes : Except String Unit
  eksClientRes : Except String Unit
  eksAccountIDRes : Except String String
  eksClusterInfoRes : Except String Unit
  eksListPodsRes : Except String Unit

/-- `main` of `main.go` (lines 9-26): it loads `.env`, then runs the
AKS, GKE and EKS tests in that order, each failure escalated to
`log.Fatalf("test failed: %v", err)`.  `main` never inspects `os.Args`;
the `args` parameter records the command line it was invoked with.
(The GKE runner invoked by `main` is the one defined in the GCP part of
`main.go`, `RunGCPTest`.) -/
def mainRun (_args : List String) (env : String → String)
    (o : RunOracles) : Except String Unit :=
  match runAKSTest env o.aksClientRes o.aksClusterInfoRes o.aksListPodsRes with
  | .error e => .error ("test failed: " ++ e)
  | .ok _ =>
    match runGCPTest env o.gcpJSONValid o.gkeClientRes o.gkeClusterInfoRes o.gkeListPodsRes with
    | .error e => .error ("test failed: " ++ e)
    | .ok _ =>
      match runEKSTest env o.eksClientRes o.eksAccountIDRes o.eksClusterInfoRes o.eksListPodsRes with
      | .error e => .error ("test failed: " ++ e)
      | .ok _ => .ok ()

/-! ### Shared concrete inputs used to evaluate the models -/

/-- Oracle outcomes in which every external call succeeds. -/
def oraclesAllOk : RunOracles :=
  { aksClientRes := .ok (), aksClusterInfoRes := .ok (), aksListPodsRes := .ok ()
    gcpJSONValid := true, gkeClientRes := .ok (), gkeClusterInfoRes := .ok ()
    gkeListPodsRes := .ok (), eksClientRes := .ok (), eksAccountIDRes := .ok "123"
    eksClusterInfoRes := .ok (), eksListPodsRes := .ok () }

/-- An environment in which all provider-required variables are set. -/
def envAllSet : String → String := fun v =>
  if v = "EKS_CLUSTER_NAME" then "prod-eks"
  else if v = "GKE_CLUSTER_NAME" then "prod-gke"
  else if v = "GOOGLE_CLOUD_PROJECT" then "my-project-1"
  else if v = "AZURE_RESOURCE_GROUP" then "rg-prod"
  else if v = "AZURE_SUBSCRIPTION_ID" then "sub-0001"
  else ""

/-! ### Claims -/

/-- Claim C1: for every provider, when the fetched cluster descriptor's
status/power-state is not the provider's running/active value, session
construction fails with an error embedding the observed status, and
(since the result is `Except.error`) no Kubernetes client session is
ever constructed from such a descriptor, regardless of the outcomes of
the credential/token oracles. -/
theorem claim_c1_not_ready_never_builds_session :
    (∀ (name : String) (cluster : EKSCluster)
        (tokenRes : Except String String) (newForConfigRes : Except String Unit),
      cluster.status ≠ "ACTIVE" →
      eksInitKubernetesClient name (.ok cluster) tokenRes newForConfigRes =
        .error ("cluster " ++ name ++ " is not active, current status: " ++ cluster.status))
  ∧ (∀ (name : String) (cluster : GKECluster) (findCredsRes : Except String Unit)
        (tokenRes : Except String String) (newForConfigRes : Except String Unit),
      cluster.status ≠ GKEStatus.running →
      gkeInitKubernetesClient name (.ok cluster) findCredsRes tokenRes newForConfigRes =
        .error ("cluster " ++ name ++ " is not running, current status: "
          ++ gkeStatusString cluster.status))
  ∧ (∀ (name code : String) (fqdn : Option String)
        (getTokenRes : Except String String) (listUserCredsRes : UserCredsResult)
        (newForConfigRes : Except String Unit),
      code ≠ "Running" →
      aksInitKubernetesClient name
        (.ok ⟨some ⟨fqdn, some ⟨some code⟩⟩⟩) getTokenRes listUserCredsRes newForConfigRes =
        .error ("cluster " ++ name ++ " is not running, current status: " ++ code)) := by
  refine ⟨?_, ?_, ?_⟩
  · intro name cluster tokenRes newForConfigRes h
    simp [eksInitKubernetesClient, h]
  · intro name cluster findCredsRes tokenRes newForConfigRes h
    simp [gkeInitKubernetesClient, h]
  · intro name code fqdn getTokenRes listUserCredsRes newForConfigRes h
    simp [aksInitKubernetesClient, h]

/-- Witness for C1: evaluation of the three not-ready branches at
concrete statuses CREATING / PROVISIONING / Stopped. -/
theorem claim_c1_witness :
    eksInitKubernetesClient "demo" (.ok ⟨"CREATING", "", "ep"⟩) (.ok "tok") (.ok ()) =
      .error ("cluster " ++ "demo" ++ " is not active, current status: " ++ "CREATING")
  ∧ gkeInitKubernetesClient "demo" (.ok ⟨.provisioning, "", "ep"⟩) (.ok ()) (.ok "tok")
      (.ok ()) =
      .error ("cluster " ++ "demo" ++ " is not running, current status: "
        ++ gkeStatusString .provisioning)
  ∧ aksInitKubernetesClient "demo" (.ok ⟨some ⟨some "fq", some ⟨some "Stopped"⟩⟩⟩)
      (.ok "tok") (.ok []) (.ok ()) =
      .error ("cluster " ++ "demo" ++ " is not running, current status: " ++ "Stopped") := by
  obtain ⟨h1, h2, h3⟩ := claim_c1_not_ready_never_builds_session
  exact ⟨h1 "demo" ⟨"CREATING", "", "ep"⟩ (.ok "tok") (.ok ()) (by decide),
    h2 "demo" ⟨.provisioning, "", "ep"⟩ (.ok ()) (.ok "tok") (.ok ()) (by decide),
    h3 "demo" "Stopped" (some "fq") (.ok "tok") (.ok []) (.ok ()) (by decide)⟩

/-- Claim C2 (evaluation of the code at the failing inputs): for a
Running AKS cluster with an FQDN and a valid Azure AD token, a failure
of the single user-credentials tier (call error, or an empty kubeconfig
list) makes session construction fail outright with the wrapped
CA-extraction error — it does not degrade to an insecure session; and
even the successful path sets the insecure flag to `false`.  This
contradicts the repository's README, which documents an
admin-then-user two-tier extraction with a final insecure fallback. -/
theorem claim_c2_ca_failure_is_fatal_not_insecure :
    aksInitKubernetesClient "demo"
      (.ok ⟨some ⟨some "demo.example.azmk8s.io", some ⟨some "Running"⟩⟩⟩)
      (.ok "adtoken") (.error "user credentials call failed") (.ok ()) =
      .error "failed to get CA certificate: no CA certificate found in cluster credentials"
  ∧ aksInitKubernetesClient "demo"
      (.ok ⟨some ⟨some "demo.example.azmk8s.io", some ⟨some "Running"⟩⟩⟩)
      (.ok "adtoken") (.ok []) (.ok ()) =
      .error "failed to get CA certificate: no CA certificate found in cluster credentials"
  ∧ aksInitKubernetesClient "demo"
      (.ok ⟨some ⟨some "demo.example.azmk8s.io", some ⟨some "Running"⟩⟩⟩)
      (.ok "adtoken") (.ok [some (.ok [[7]])]) (.ok ()) =
      .ok ⟨"https://demo.example.azmk8s.io", "adtoken", [7], false⟩ := by
  refine ⟨?_, ?_, ?_⟩ <;> decide

/-- Counterexample for C3: `main` does not dispatch on its argument.
Invoked with the explicit argument "aws" in an empty environment it
reports the AKS connector's missing AZURE_RESOURCE_GROUP (all three
connectors run, AKS first), not the claimed EKS_CLUSTER_NAME
configuration error; and with no argument and only EKS_CLUSTER_NAME set
(where auto-detection would run just the AWS connector and succeed) it
still fails on the AKS connector's required variables. -/
theorem claim_c3_counterexample :
    mainRun ["aws"] (fun _ => "") oraclesAllOk =
      .error "test failed: AZURE_RESOURCE_GROUP environment variable must be set"
  ∧ mainRun ["aws"] (fun _ => "") oraclesAllOk ≠
      .error "test failed: EKS_CLUSTER_NAME environment variable is required"
  ∧ mainRun [] (fun v => if v = "EKS_CLUSTER_NAME" then "prod-eks" else "") oraclesAllOk =
      .error "test failed: AZURE_RESOURCE_GROUP environment variable must be set" := by
  refine ⟨?_, ?_, ?_⟩ <;> decide

/-- Claim C3 as amended: the entry point is not a dispatcher — `main`
ignores its command-line arguments entirely and unconditionally runs
the AKS, then GKE, then EKS connectors, escalating the first failure to
a fatal exit; there is no explicit-selection mode and no auto-detection
from environment variables. -/
theorem claim_c3_amended_main_ignores_args :
    (∀ (args args' : List String) (env : String → String) (o : RunOracles),
      mainRun args env o = mainRun args' env o)
  ∧ (∀ (args : List String) (env : String → String) (o : RunOracles) (e : String),
      runAKSTest env o.aksClientRes o.aksClusterInfoRes o.aksListPodsRes = .error e →
      mainRun args env o = .error ("test failed: " ++ e))
  ∧ (∀ (args : List String) (env : String → String) (o : RunOracles),
      runAKSTest env o.aksClientRes o.aksClusterInfoRes o.aksListPodsRes = .ok () →
      runGCPTest env o.gcpJSONValid o.gkeClientRes o.gkeClusterInfoRes o.gkeListPodsRes =
        .ok () →
      runEKSTest env o.eksClientRes o.eksAccountIDRes o.eksClusterInfoRes o.eksListPodsRes =
        .ok () →
      mainRun args env o = .ok ()) := by
  refine ⟨?_, ?_, ?_⟩
  · intros; rfl
  · intro args env o e h; simp [mainRun, h]
  · intro args env o h1 h2 h3; simp [mainRun, h1, h2, h3]

/-- Witness for the amended C3: in an empty environment the AKS run
fails first and `main` reports exactly that failure, whatever the
argument. -/
theorem claim_c3_witness :
    mainRun ["gcp"] (fun _ => "") oraclesAllOk =
      .error ("test failed: " ++ "AZURE_RESOURCE_GROUP environment variable must be set") :=
  claim_c3_amended_main_ignores_args.2.1 ["gcp"] (fun _ => "") oraclesAllOk
    "AZURE_RESOURCE_GROUP environment variable must be set" (by decide)

/-- Claim C4: credential-source selection is a pure function of which
inputs are present, in fixed priority order — AWS: static key pair,
then profile, then default chain; GCP: inline JSON, then credentials
file, then application-default; Azure: service-principal triple, then
managed identity (opt-in flag "true"), then CLI.  A higher-priority
source whose inputs are present is selected exclusively, whatever the
lower-priority inputs; with no inputs the lowest-priority default is
selected. -/
theorem claim_c4_credential_priority :
    (∀ c : AWSConfig, c.accessKey ≠ "" → c.secretKey ≠ "" →
      awsSelectCredSource c = .staticCreds)
  ∧ (∀ c : AWSConfig, (c.accessKey = "" ∨ c.secretKey = "") → c.profile ≠ "" →
      awsSelectCredSource c = .sharedProfile)
  ∧ (∀ c : AWSConfig, c.accessKey = "" → c.secretKey = "" → c.profile = "" →
      awsSelectCredSource c = .defaultChain)
  ∧ (∀ c : GCPConfig, c.credentialsJSON ≠ [] →
      gcpSelectCredSource c = .inlineJSON)
  ∧ (∀ c : GCPConfig, c.credentialsJSON = [] → c.credentialsPath ≠ "" →
      gcpSelectCredSource c = .credentialsFile)
  ∧ (∀ c : GCPConfig, c.credentialsJSON = [] → c.credentialsPath = "" →
      gcpSelectCredSource c = .applicationDefault)
  ∧ (∀ e : AzureAuthEnv, e.clientID ≠ "" → e.clientSecret ≠ "" → e.tenantID ≠ "" →
      azureSelectCredSource e = .servicePrincipal)
  ∧ (∀ e : AzureAuthEnv, (e.clientID = "" ∨ e.clientSecret = "" ∨ e.tenantID = "") →
      e.useMSI = "true" → azureSelectCredSource e = .managedIdentity)
  ∧ (∀ e : AzureAuthEnv, e.clientID = "" → e.clientSecret = "" → e.tenantID = "" →
      e.useMSI ≠ "true" → azureSelectCredSource e = .azureCLI) := by
  refine ⟨?_, ?_, ?_, ?_, ?_, ?_, ?_, ?_, ?_⟩
  · intro c h1 h2; simp [awsSelectCredSource, h1, h2]
  · intro c h1 h2
    rcases h1 with h | h <;> simp [awsSelectCredSource, h, h2]
  · intro c h1 h2 h3; simp [awsSelectCredSource, h1, h2, h3]
  · intro c h1
    have hl : c.credentialsJSON.length > 0 := by
      cases hc : c.credentialsJSON with
      | nil => exact absurd hc h1
      | cons a l => simp [hc]
    simp [gcpSelectCredSource, hl]
  · intro c h1 h2; simp [gcpSelectCredSource, h1, h2]
  · intro c h1 h2; simp [gcpSelectCredSource, h1, h2]
  · intro e h1 h2 h3; simp [azureSelectCredSource, h1, h2, h3]
  · intro e h1 h2
    rcases h1 with h | h | h <;> simp [azureSelectCredSource, h, h2]
  · intro e h1 h2 h3 h4; simp [azureSelectCredSource, h1, h2, h3, h4]

/-- Witness for C4: all nine selection tiers evaluated at concrete
configurations (higher- and lower-priority inputs set simultaneously,
and nothing set). -/
theorem claim_c4_witness :
    awsSelectCredSource ⟨"us-east-1", "dev", "AKIAEXAMPLE", "SECRETEXAMPLE", ""⟩ =
      .staticCreds
  ∧ awsSelectCredSource ⟨"us-east-1", "dev", "", "", ""⟩ = .sharedProfile
  ∧ awsSelectCredSource ⟨"us-east-1", "", "", "", ""⟩ = .defaultChain
  ∧ gcpSelectCredSource ⟨"my-project-1", "", [123], "/sa.json"⟩ = .inlineJSON
  ∧ gcpSelectCredSource ⟨"my-project-1", "", [], "/sa.json"⟩ = .credentialsFile
  ∧ gcpSelectCredSource ⟨"my-project-1", "", [], ""⟩ = .applicationDefault
  ∧ azureSelectCredSource ⟨"cid", "secret", "tid", "true"⟩ = .servicePrincipal
  ∧ azureSelectCredSource ⟨"", "", "", "true"⟩ = .managedIdentity
  ∧ azureSelectCredSource ⟨"", "", "", ""⟩ = .azureCLI := by
  obtain ⟨h1, h2, h3, h4, h5, h6, h7, h8, h9⟩ := claim_c4_credential_priority
  exact ⟨h1 _ (by decide) (by decide), h2 _ (Or.inl rfl) (by decide), h3 _ rfl rfl rfl,
    h4 _ (by decide), h5 _ rfl (by decide), h6 _ rfl rfl,
    h7 _ (by decide) (by decide) (by decide), h8 _ (Or.inl rfl) rfl,
    h9 _ rfl rfl rfl (by decide)⟩

/-- Claim C5: GCP project-ID pre-validation rejects "ab" (too short)
and "my project" (contains a space), rejects the empty project ID, and
accepts "my-project-1"; for a rejected ID, `initializeGCPClients`
returns the configuration-validation error whatever the outcomes of the
client-construction and network-call oracles — no client is constructed
and no network call is consulted. -/
theorem claim_c5_project_id_validation :
    (∀ (zone : String) (json : List Nat) (path : String),
      gcpValidateConfig ⟨"ab", zone, json, path⟩ = .error "invalid project ID format: ab")
  ∧ (∀ (zone : String) (json : List Nat) (path : String),
      gcpValidateConfig ⟨"my project", zone, json, path⟩ =
        .error "invalid project ID format: my project")
  ∧ (∀ (zone : String) (json : List Nat) (path : String),
      gcpValidateConfig ⟨"my-project-1", zone, json, path⟩ = .ok ())
  ∧ (∀ (zone : String) (json : List Nat) (path : String),
      gcpValidateConfig ⟨"", zone, json, path⟩ = .error "project ID is required")
  ∧ (∀ (zone : String) (json : List Nat) (path : String)
        (gkeClientRes storageClientRes bucketsNext : Except String Unit),
      initGCPClients ⟨"ab", zone, json, path⟩ gkeClientRes storageClientRes bucketsNext =
        .error "configuration validation failed: invalid project ID format: ab")
  ∧ (∀ (zone : String) (json : List Nat) (path : String)
        (gkeClientRes storageClientRes bucketsNext : Except String Unit),
      initGCPClients ⟨"my project", zone, json, path⟩ gkeClientRes storageClientRes
        bucketsNext =
        .error "configuration validation failed: invalid project ID format: my project")
  ∧ (∀ (zone : String) (json : List Nat) (path : String)
        (gkeClientRes storageClientRes bucketsNext : Except String Unit),
      initGCPClients ⟨"", zone, json, path⟩ gkeClientRes storageClientRes bucketsNext =
        .error "configuration validation failed: project ID is required") := by
  refine ⟨?_, ?_, ?_, ?_, ?_, ?_, ?_⟩ <;> intros <;> rfl

/-- Claim C6: for AWS and GKE, when the descriptor's base64 CA field
fails to decode, session construction fails with the decode error (for
an otherwise-ready cluster), and every successfully constructed session
has TLS verification enabled (`insecure = false`) — there is no
insecure fallback. -/
theorem claim_c6_bad_base64_fatal :
    (∀ (name ep ca : String) (tokenRes : Except String String)
        (newForConfigRes : Except String Unit),
      base64DecodeString ca = none →
      eksInitKubernetesClient name (.ok ⟨"ACTIVE", ca, ep⟩) tokenRes newForConfigRes =
        .error "failed to decode certificate authority data")
  ∧ (∀ (name ep ca : String) (findCredsRes : Except String Unit)
        (tokenRes : Except String String) (newForConfigRes : Except String Unit),
      base64DecodeString ca = none →
      gkeInitKubernetesClient name (.ok ⟨.running, ca, ep⟩) findCredsRes tokenRes
        newForConfigRes =
        .error "failed to decode certificate authority data")
  ∧ (∀ (name : String) (describeRes : Except String EKSCluster)
        (tokenRes : Except String String) (newForConfigRes : Except String Unit)
        (cfg : RestConfig),
      eksInitKubernetesClient name describeRes tokenRes newForConfigRes = .ok cfg →
      cfg.insecure = false)
  ∧ (∀ (name : String) (getClusterRes : Except String GKECluster)
        (findCredsRes : Except String Unit) (tokenRes : Except String String)
        (newForConfigRes : Except String Unit) (cfg : RestConfig),
      gkeInitKubernetesClient name getClusterRes findCredsRes tokenRes newForConfigRes =
        .ok cfg →
      cfg.insecure = false) := by
  refine ⟨?_, ?_, ?_, ?_⟩
  · intro name ep ca tokenRes newForConfigRes h
    simp [eksInitKubernetesClient, h]
  · intro name ep ca findCredsRes tokenRes newForConfigRes h
    simp [gkeInitKubernetesClient, h]
  · intro name describeRes tokenRes newForConfigRes cfg h
    unfold eksInitKubernetesClient at h
    repeat' split at h
    all_goals first | exact Except.noConfusion h | (injection h with h2; subst h2; rfl)
  · intro name getClusterRes findCredsRes tokenRes newForConfigRes cfg h
    unfold gkeInitKubernetesClient at h
    repeat' split at h
    all_goals first | exact Except.noConfusion h | (injection h with h2; subst h2; rfl)

/-- Witness for C6: "!!!!" is not valid base64 and makes both the EKS
and the GKE builders fail with the decode error; a concrete successful
session has `insecure = false`. -/
theorem claim_c6_witness :
    eksInitKubernetesClient "demo" (.ok ⟨"ACTIVE", "!!!!", "ep"⟩) (.ok "tok") (.ok ()) =
      .error "failed to decode certificate authority data"
  ∧ gkeInitKubernetesClient "demo" (.ok ⟨.running, "!!!!", "ep"⟩) (.ok ()) (.ok "tok")
      (.ok ()) =
      .error "failed to decode certificate authority data"
  ∧ (⟨"ep", "tok", [], false⟩ : RestConfig).insecure = false := by
  obtain ⟨h1, h2, h3, _h4⟩ := claim_c6_bad_base64_fatal
  exact ⟨h1 "demo" "ep" "!!!!" (.ok "tok") (.ok ()) (by decide),
    h2 "demo" "ep" "!!!!" (.ok ()) (.ok "tok") (.ok ()) (by decide),
    h3 "demo" (.ok ⟨"ACTIVE", "", "ep"⟩) (.ok "tok") (.ok ())
      ⟨"ep", "tok", [], false⟩ (by decide)⟩

/-- Claim C7: the GCP credential-validation step returns success
unconditionally for every input (the function body is an unconditional
`return nil` before the bucket-listing check), so whenever everything
up to that step succeeds, GCP client initialization succeeds whatever
the bucket-listing outcome — resolution never fails on account of this
validation call. -/
theorem claim_c7_validation_is_noop :
    (∀ bucketsNext : Except String Unit, gcpValidateCredentials bucketsNext = .ok ())
  ∧ (∀ (cfg : GCPConfig) (bucketsNext : Except String Unit),
      gcpValidateConfig cfg = .ok () →
      initGCPClients cfg (.ok ()) (.ok ()) bucketsNext = .ok (gcpSelectCredSource cfg)) := by
  constructor
  · intro b; rfl
  · intro cfg b h; simp [initGCPClients, h, gcpValidateCredentials]

/-- Witness for C7: with a failing bucket-listing call, initialization
still succeeds. -/
theorem claim_c7_witness :
    initGCPClients ⟨"my-project-1", "", [], ""⟩ (.ok ()) (.ok ())
      (.error "bucket listing failed") = .ok .applicationDefault :=
  claim_c7_validation_is_noop.2 ⟨"my-project-1", "", [], ""⟩
    (.error "bucket listing failed") (by decide)

/-- Claim C8: for every provider, once the client session is
established (client construction succeeded and the required variables
are present), the run function returns success whatever the outcomes of
the post-connection diagnostic calls (account-ID fetch, cluster-info
fetch, pod listing) — their failures are logged, not propagated. -/
theorem claim_c8_diagnostics_best_effort :
    (∀ (env : String → String) (accountIDRes : Except String String)
        (clusterInfoRes listPodsRes : Except String Unit),
      env "EKS_CLUSTER_NAME" ≠ "" →
      runEKSTest env (.ok ()) accountIDRes clusterInfoRes listPodsRes = .ok ())
  ∧ (∀ (env : String → String) (jsonValid : Bool)
        (clusterInfoRes listPodsRes : Except String Unit),
      env "GKE_CLUSTER_NAME" ≠ "" → env "GOOGLE_CLOUD_PROJECT" ≠ "" →
      env "GCP_CREDENTIALS_JSON" = "" →
      runGCPTest env jsonValid (.ok ()) clusterInfoRes listPodsRes = .ok ())
  ∧ (∀ (env : String → String) (clusterInfoRes listPodsRes : Except String Unit),
      env "AZURE_RESOURCE_GROUP" ≠ "" → env "AZURE_SUBSCRIPTION_ID" ≠ "" →
      runAKSTest env (.ok ()) clusterInfoRes listPodsRes = .ok ()) := by
  refine ⟨?_, ?_, ?_⟩
  · intro env accountIDRes clusterInfoRes listPodsRes h
    simp [runEKSTest, h]
  · intro env jsonValid clusterInfoRes listPodsRes h1 h2 h3
    simp [runGCPTest, h1, h2, h3]
  · intro env clusterInfoRes listPodsRes h1 h2
    simp [runAKSTest, h1, h2]

/-- Witness for C8: with every diagnostic call failing, all three runs
still return success. -/
theorem claim_c8_witness :
    runEKSTest envAllSet (.ok ()) (.error "sts down") (.error "describe failed")
      (.error "pod list failed") = .ok ()
  ∧ runGCPTest envAllSet true (.ok ()) (.error "cluster info failed")
      (.error "pod list failed") = .ok ()
  ∧ runAKSTest envAllSet (.ok ()) (.error "cluster info failed")
      (.error "pod list failed") = .ok () := by
  obtain ⟨h1, h2, h3⟩ := claim_c8_diagnostics_best_effort
  exact ⟨h1 envAllSet (.error "sts down") (.error "describe failed")
      (.error "pod list failed") (by decide),
    h2 envAllSet true (.error "cluster info failed") (.error "pod list failed")
      (by decide) (by decide) (by decide),
    h3 envAllSet (.error "cluster info failed") (.error "pod list failed")
      (by decide) (by decide)⟩

/-- Claim C9: the AWS static source is chosen only when both keys are
non-empty; with exactly one of AccessKey/SecretKey set the resolver
silently selects the profile source (when Profile is non-empty) or the
default chain — the selection is total, so the incomplete key pair is
never reported as an error. -/
theorem claim_c9_incomplete_static_pair_skipped :
    (∀ c : AWSConfig, c.accessKey ≠ "" → c.secretKey = "" →
      awsSelectCredSource c =
        (if c.profile ≠ "" then .sharedProfile else .defaultChain))
  ∧ (∀ c : AWSConfig, c.accessKey = "" → c.secretKey ≠ "" →
      awsSelectCredSource c =
        (if c.profile ≠ "" then .sharedProfile else .defaultChain)) := by
  constructor
  · intro c h1 h2; simp [awsSelectCredSource, h2]
  · intro c h1 h2; simp [awsSelectCredSource, h1]

/-- Witness for C9: access key without secret key falls through to the
profile; secret key without access key and no profile falls through to
the default chain. -/
theorem claim_c9_witness :
    awsSelectCredSource ⟨"us-east-1", "dev", "AKIAEXAMPLE", "", ""⟩ = .sharedProfile
  ∧ awsSelectCredSource ⟨"us-east-1", "", "", "SECRETEXAMPLE", ""⟩ = .defaultChain := by
  obtain ⟨h1, h2⟩ := claim_c9_incomplete_static_pair_skipped
  exact ⟨h1 ⟨"us-east-1", "dev", "AKIAEXAMPLE", "", ""⟩ (by decide) rfl,
    h2 ⟨"us-east-1", "", "", "SECRETEXAMPLE", ""⟩ rfl (by decide)⟩

/-- Claim C10: the Azure connector refuses a descriptor with nil
Properties ("cluster properties are nil") or nil PowerState /
PowerState.Code ("cluster power state is unknown"), in both the current
(`aks.go`) and the legacy (`src/unnamed/part_002`) session builders,
whatever the remaining oracle outcomes; an unknown state is never
accepted as ready. -/
theorem claim_c10_nil_guards :
    (∀ (name : String) (tok : Except String String) (creds : UserCredsResult)
        (nfc : Except String Unit),
      aksInitKubernetesClient name (.ok ⟨none⟩) tok creds nfc =
        .error "cluster properties are nil")
  ∧ (∀ (name : String) (fqdn : Option String) (tok : Except String String)
        (creds : UserCredsResult) (nfc : Except String Unit),
      aksInitKubernetesClient name (.ok ⟨some ⟨fqdn, none⟩⟩) tok creds nfc =
        .error "cluster power state is unknown")
  ∧ (∀ (name : String) (fqdn : Option String) (tok : Except String String)
        (creds : UserCredsResult) (nfc : Except String Unit),
      aksInitKubernetesClient name (.ok ⟨some ⟨fqdn, some ⟨none⟩⟩⟩) tok creds nfc =
        .error "cluster power state is unknown")
  ∧ (∀ (name : String) (creds : AdminCredsResult) (nfc : Except String Unit),
      aksInitKubernetesClientLegacy name (.ok ⟨none⟩) creds nfc =
        .error "cluster properties are nil")
  ∧ (∀ (name : String) (fqdn : Option String) (creds : AdminCredsResult)
        (nfc : Except String Unit),
      aksInitKubernetesClientLegacy name (.ok ⟨some ⟨fqdn, none⟩⟩) creds nfc =
        .error "cluster power state is unknown")
  ∧ (∀ (name : String) (fqdn : Option String) (creds : AdminCredsResult)
        (nfc : Except String Unit),
      aksInitKubernetesClientLegacy name (.ok ⟨some ⟨fqdn, some ⟨none⟩⟩⟩) creds nfc =
        .error "cluster power state is unknown") := by
  refine ⟨?_, ?_, ?_, ?_, ?_, ?_⟩ <;> intros <;> rfl

end ConnectK8s
